import Mathlib

/-!
Shallow embedding of the SAM3D runpod deployment handler (src/handler.py).

Rasters are modelled as `Img`: a width, a height, and a total pixel function
`px x y` giving the sample value at column `x`, row `y` (PIL coordinates:
origin top-left, x to the right, y down; `Image.size` is `(width, height)`).
`np.array` of an "L"-mode PIL image is the (height, width) array with
`arr[row][col] = px col row`; since the mask is converted to mode "L"
(handler.py line 96) that array is always 2-dimensional, so the defensive
channel-collapse at lines 123-125 (`if len(mask.shape) > 2`) is the identity
and the embedding keeps masks 2-dimensional throughout.

The handler's effectful steps (model initialization, base64+PIL decoding,
EXIF transposition, model inference, GLB export) are abstracted as an
environment of fallible functions (`Env`); a Python exception is an
`Except.error` carrying `str(e)`.  The returned Python dict is an
association list of string key/value pairs.
-/

/-- A raster: PIL image or 2-D numpy array. `px x y` is the sample at
column `x`, row `y`; values outside the `width`×`height` box are junk
that no statement depends on. -/
structure Img where
  width : Nat
  height : Nat
  px : Nat → Nat → Nat

/-- PIL `transpose(Image.ROTATE_90)`: rotate 90 degrees counterclockwise.
Output size is `(height, width)`; output pixel `(x, y)` is the input pixel
`(width - 1 - y, x)`. (handler.py line 106) -/
def rotate90 (m : Img) : Img :=
  ⟨m.height, m.width, fun x y => m.px (m.width - 1 - y) x⟩

/-- PIL `transpose(Image.ROTATE_180)`. (handler.py line 108) -/
def rotate180 (m : Img) : Img :=
  ⟨m.width, m.height, fun x y => m.px (m.width - 1 - x) (m.height - 1 - y)⟩

/-- PIL `resize((w, h), resample=Image.NEAREST)`: each destination pixel
takes the source pixel nearest to the center of its preimage,
`src = floor((dst + 1/2) * srcSize / dstSize)`. (handler.py line 114) -/
def resizeNearest (m : Img) (w h : Nat) : Img :=
  ⟨w, h, fun x y => m.px ((2 * x + 1) * m.width / (2 * w)) ((2 * y + 1) * m.height / (2 * h))⟩

/-- The binarization of one sample: `(v > 128).astype(np.uint8)`.
(handler.py line 121) -/
def binarize (v : Nat) : Nat :=
  if 128 < v then 1 else 0

/-- Apply `binarize` to every sample of a raster: `(mask_np > 128).astype(np.uint8)`
as an array operation. (handler.py line 121) -/
def binMap (m : Img) : Img :=
  ⟨m.width, m.height, fun x y => binarize (m.px x y)⟩

/-- Steps 3-4 of the handler (lines 102-114): the smart rotation check and
the final safety resize, before binarization.  `image.size == (mask.size[1],
mask.size[0])` is `image.width = mask.height && image.height = mask.width`. -/
def preAlign (image msk : Img) : Img :=
  let msk1 :=
    if image.width == msk.height && image.height == msk.width then
      let r := rotate90 msk
      if !(image.width == r.width && image.height == r.height) then rotate180 r else r
    else msk
  if !(image.width == msk1.width && image.height == msk1.height) then
    resizeNearest msk1 image.width image.height
  else msk1

/-- The full mask pipeline of the handler, lines 102-125: smart rotation,
safety resize, binarization.  The channel collapse at lines 123-125 is the
identity because the mask was converted to single-channel "L" mode at line
96, so its numpy array is already 2-dimensional. -/
def alignMask (image msk : Img) : Img :=
  binMap (preAlign image msk)

/-- Lines 117-125 as a whole: the image array is taken unchanged and the
mask is aligned to it. -/
def alignPair (image msk : Img) : Img × Img :=
  (image, alignMask image msk)

/-- The mask pipeline with the 180-degree branch of line 107-108 deleted,
used to state that that branch is unreachable. -/
def preAlignNo180 (image msk : Img) : Img :=
  let msk1 :=
    if image.width == msk.height && image.height == msk.width then rotate90 msk
    else msk
  if !(image.width == msk1.width && image.height == msk1.height) then
    resizeNearest msk1 image.width image.height
  else msk1

/-- `alignMask` with the dead 180-degree branch removed. -/
def alignMaskNo180 (image msk : Img) : Img :=
  binMap (preAlignNo180 image msk)

/-- The `input` dict of a job.  The handler reads the keys `image`, `mask`
and `seed`; the remote-variant keys `image_url`, `mask_url` and
`output_location` are carried so that a remote request can be presented to
the handler, which has no code reading them. -/
structure JobInput where
  image : Option String
  mask : Option String
  image_url : Option String
  mask_url : Option String
  output_location : Option String
  seed : Option Int

/-- The value returned by the external model: whether its output dict
carries the "glb" key (line 133). -/
structure ModelOutput where
  hasGlb : Bool

/-- The effectful collaborators of the handler.  Each may raise a Python
exception, modelled as `Except.error` carrying `str(e)`:
`initModel` is `init_model()` (line 92), `decodeImage`/`decodeMask` are
`decode_base64_image` (+ `.convert("L")` for the mask, lines 95-96),
`exifImage`/`exifMask` are `ImageOps.exif_transpose` (lines 99-100),
`runModel` is `inference_pipeline(image, mask, seed=seed)` (line 130) and
`exportGlb` is the alpha-channel fix, GLB export, file read and base64
encode of lines 134-151. -/
structure Env where
  initModel : Except String Unit
  decodeImage : String → Except String Img
  decodeMask : String → Except String Img
  exifImage : Img → Except String Img
  exifMask : Img → Except String Img
  runModel : Img → Img → Int → Except String ModelOutput
  exportGlb : ModelOutput → Except String String

/-- Line 89 / line 154 error strings. -/
def missingFieldsMsg : String :=
  "Input must contain \x27image\x27 and \x27mask\x27 base64 strings."

/-- Line 154 error string. -/
def modelFailMsg : String :=
  "Model failed to generate GLB output."

/-- The body of the `try` block of the handler (lines 91-154), once the
`image` and `mask` strings are known: any step may raise, and the raised
message propagates as `Except.error`.  The alignment of lines 102-125 is
the pure `alignMask` on the EXIF-normalized rasters. -/
def handlerBody (env : Env) (imgS mskS : String) (seed : Int) :
    Except String (List (String × String)) :=
  match env.initModel with
  | .error e => .error e
  | .ok _ =>
  match env.decodeImage imgS with
  | .error e => .error e
  | .ok image0 =>
  match env.decodeMask mskS with
  | .error e => .error e
  | .ok mask0 =>
  match env.exifImage image0 with
  | .error e => .error e
  | .ok image1 =>
  match env.exifMask mask0 with
  | .error e => .error e
  | .ok mask1 =>
  match env.runModel image1 (alignMask image1 mask1) seed with
  | .error e => .error e
  | .ok out =>
  if out.hasGlb then
    match env.exportGlb out with
    | .error e => .error e
    | .ok b64 => .ok [("glb_file", b64)]
  else
    .ok [("error", modelFailMsg)]

/-- The handler (lines 85-159): validate that `image` and `mask` are
present (lines 88-89), else run the body with the seed defaulted to 42
(line 127), turning any raised exception into `{"error": str(e)}`
(lines 156-159). -/
def handler (env : Env) (job : JobInput) : List (String × String) :=
  match job.image, job.mask with
  | some i, some m =>
    match handlerBody env i m (job.seed.getD 42) with
    | .ok r => r
    | .error e => [("error", e)]
  | _, _ => [("error", missingFieldsMsg)]

/-- A 2×2 all-black image. -/
def imgSq : Img := ⟨2, 2, fun _ _ => 0⟩

/-- A 2×2 mask, white only at the top-left pixel: already matching `imgSq`
in size. -/
def mskSq : Img := ⟨2, 2, fun x y => if x == 0 && y == 0 then 255 else 0⟩

/-- A 1×1 image. -/
def img1 : Img := ⟨1, 1, fun _ _ => 0⟩

/-- A 1×1 all-white mask. -/
def msk255 : Img := ⟨1, 1, fun _ _ => 255⟩

/-- A 512-wide, 384-high image. -/
def img512 : Img := ⟨512, 384, fun _ _ => 0⟩

/-- A 384-wide, 512-high mask: axes transposed relative to `img512`. -/
def msk384 : Img := ⟨384, 512, fun x y => x + y⟩

/-- An environment in which every step succeeds but the model's output
dict lacks the "glb" key. -/
def env0 : Env :=
  ⟨.ok (), fun _ => .ok img512, fun _ => .ok msk384, fun i => .ok i, fun i => .ok i,
   fun _ _ _ => .ok ⟨false⟩, fun _ => .ok ("")⟩

/-- An environment in which model initialization raises `boom`. -/
def envErr : Env :=
  ⟨.error ("boom"), fun _ => .error ("boom"), fun _ => .error ("boom"),
   fun _ => .error ("boom"), fun _ => .error ("boom"), fun _ _ _ => .error ("boom"),
   fun _ => .error ("boom")⟩

/-- A remote-variant request: `image_url`, `mask_url`, `output_location`
and `seed` present, no inline `image`/`mask`. -/
def remoteJob : JobInput :=
  ⟨none, none, some ("http://example.com/i.png"), some ("http://example.com/m.png"),
   some ("http://example.com/out.glb"), some 42⟩

/-- An inline request with both `image` and `mask` present. -/
def inlineJob : JobInput :=
  ⟨some ("aW1n"), some ("bXNr"), none, none, none, some 7⟩

/-- An inline request missing the `mask` field. -/
def jobNoMask : JobInput :=
  ⟨some ("aW1n"), none, none, none, none, none⟩

/-! ### Helper lemmas shared by the claim theorems -/

theorem binarize01 (v : Nat) : binarize v = 0 ∨ binarize v = 1 := by
  unfold binarize
  split
  · exact Or.inr rfl
  · exact Or.inl rfl

theorem preAlign_swapped (image msk : Img)
    (h1 : image.width = msk.height) (h2 : image.height = msk.width) :
    preAlign image msk = rotate90 msk := by
  unfold preAlign
  simp [rotate90, h1, h2]

theorem preAlign_matching (image msk : Img)
    (hc : (image.width == msk.height && image.height == msk.width) = false)
    (h1 : image.width = msk.width) (h2 : image.height = msk.height) :
    preAlign image msk = msk := by
  have hp : ¬(msk.width = msk.height ∧ msk.height = msk.width) := by
    rintro ⟨ha, hb⟩
    rw [h1.trans ha, h2.trans hb] at hc
    simp at hc
  unfold preAlign
  simp [h1, h2, hp]

theorem preAlign_resized (image msk : Img)
    (hc : (image.width == msk.height && image.height == msk.width) = false)
    (hs : (image.width == msk.width && image.height == msk.height) = false) :
    preAlign image msk = resizeNearest msk image.width image.height := by
  unfold preAlign
  simp [hc, hs]

theorem preAlign_size (image msk : Img) :
    (preAlign image msk).width = image.width ∧ (preAlign image msk).height = image.height := by
  cases hc : (image.width == msk.height && image.height == msk.width) with
  | true =>
    obtain ⟨h1, h2⟩ : image.width = msk.height ∧ image.height = msk.width := by
      simpa [Bool.and_eq_true, beq_iff_eq] using hc
    rw [preAlign_swapped image msk h1 h2]
    exact ⟨h1.symm, h2.symm⟩
  | false =>
    cases hs : (image.width == msk.width && image.height == msk.height) with
    | true =>
      obtain ⟨h1, h2⟩ : image.width = msk.width ∧ image.height = msk.height := by
        simpa [Bool.and_eq_true, beq_iff_eq] using hs
      rw [preAlign_matching image msk hc h1 h2]
      exact ⟨h1.symm, h2.symm⟩
    | false =>
      rw [preAlign_resized image msk hc hs]
      exact ⟨rfl, rfl⟩

theorem preAlign_px_source (image msk : Img) (x y : Nat) :
    ∃ a b, (preAlign image msk).px x y = msk.px a b := by
  cases hc : (image.width == msk.height && image.height == msk.width) with
  | true =>
    obtain ⟨h1, h2⟩ : image.width = msk.height ∧ image.height = msk.width := by
      simpa [Bool.and_eq_true, beq_iff_eq] using hc
    rw [preAlign_swapped image msk h1 h2]
    exact ⟨_, _, rfl⟩
  | false =>
    cases hs : (image.width == msk.width && image.height == msk.height) with
    | true =>
      obtain ⟨h1, h2⟩ : image.width = msk.width ∧ image.height = msk.height := by
        simpa [Bool.and_eq_true, beq_iff_eq] using hs
      rw [preAlign_matching image msk hc h1 h2]
      exact ⟨x, y, rfl⟩
    | false =>
      rw [preAlign_resized image msk hc hs]
      exact ⟨_, _, rfl⟩

theorem alignMask_px_eq (image msk : Img) (x y : Nat) :
    (alignMask image msk).px x y = binarize ((preAlign image msk).px x y) := rfl

theorem alignMask_size (image msk : Img) :
    (alignMask image msk).width = image.width ∧ (alignMask image msk).height = image.height :=
  preAlign_size image msk

theorem alignMask_px01 (image msk : Img) (x y : Nat) :
    (alignMask image msk).px x y = 0 ∨ (alignMask image msk).px x y = 1 :=
  binarize01 _

theorem preAlign_eq_no180 (image msk : Img) :
    preAlign image msk = preAlignNo180 image msk := by
  cases hc : (image.width == msk.height && image.height == msk.width) with
  | true =>
    obtain ⟨h1, h2⟩ : image.width = msk.height ∧ image.height = msk.width := by
      simpa [Bool.and_eq_true, beq_iff_eq] using hc
    rw [preAlign_swapped image msk h1 h2]
    unfold preAlignNo180
    simp [rotate90, h1, h2]
  | false =>
    unfold preAlign preAlignNo180
    simp only [hc, Bool.false_eq_true, if_false]

theorem handlerBody_cases (env : Env) (i m : String) (s : Int) :
    (∃ e, handlerBody env i m s = .error e) ∨
    (∃ g, handlerBody env i m s = .ok [("glb_file", g)]) ∨
    handlerBody env i m s = .ok [("error", modelFailMsg)] := by
  unfold handlerBody
  split
  · exact Or.inl ⟨_, rfl⟩
  split
  · exact Or.inl ⟨_, rfl⟩
  split
  · exact Or.inl ⟨_, rfl⟩
  split
  · exact Or.inl ⟨_, rfl⟩
  split
  · exact Or.inl ⟨_, rfl⟩
  split
  · exact Or.inl ⟨_, rfl⟩
  split
  · split
    · exact Or.inl ⟨_, rfl⟩
    · exact Or.inr (Or.inl ⟨_, rfl⟩)
  · exact Or.inr (Or.inr rfl)

theorem handler_some (env : Env) (i m : String) (ju jmu jo : Option String)
    (js : Option Int) :
    handler env ⟨some i, some m, ju, jmu, jo, js⟩ =
      match handlerBody env i m (js.getD 42) with
      | .ok r => r
      | .error e => [("error", e)] := rfl

/-! ### The claims -/

/-- C1 (code bug): the claim — and the spec — say that a pair already
matching in size, square pairs included, passes through the align step with
the mask geometrically unchanged, the rotation logic being skipped.  The
code checks `image_pil.size == (mask_pil.size[1], mask_pil.size[0])`
(line 104) *before* any equal-size check, and for a square already-matching
pair that condition is trivially true, so the mask is spuriously rotated
90 degrees.  This theorem evaluates the embedded code at the failing input:
a 2×2 image with an already-matching 2×2 mask whose only white pixel is at
(0,0).  The output dimensions are unchanged, the code did apply
`rotate90`, and the white pixel has moved from (0,0) to (0,1), so the
output is not the binarization of the input. -/
theorem C1_square_match_spuriously_rotated :
    (alignMask imgSq mskSq).width = mskSq.width ∧
    (alignMask imgSq mskSq).height = mskSq.height ∧
    alignMask imgSq mskSq = binMap (rotate90 mskSq) ∧
    (alignMask imgSq mskSq).px 0 0 = 0 ∧
    binarize (mskSq.px 0 0) = 1 ∧
    (alignMask imgSq mskSq).px 0 1 = 1 :=
  ⟨rfl, rfl, rfl, rfl, rfl, rfl⟩

/-- C2: for every image and mask input the alignment pipeline terminates
with the exit invariant: the mask's (height, width) equals the image's
first two shape components, and every mask sample is 0 or 1.  (The mask is
2-dimensional by construction: it is converted to single-channel "L" mode
at line 96, so `np.array` yields a 2-D array and the collapse at lines
123-125 is the identity.) -/
theorem C2_align_exit_invariant (image msk : Img) :
    (alignMask image msk).width = image.width ∧
    (alignMask image msk).height = image.height ∧
    ∀ x y, (alignMask image msk).px x y = 0 ∨ (alignMask image msk).px x y = 1 :=
  ⟨(alignMask_size image msk).1, (alignMask_size image msk).2,
   fun x y => alignMask_px01 image msk x y⟩

/-- C3 (counterexample): a remote-variant request (`image_url`, `mask_url`,
`output_location`, `seed` present) is not dispatched to any fetch-and-deliver
path: the handler, which reads only `image` and `mask`, rejects it with the
inline missing-fields error, and the result carries no "status" key at all
— in particular it is not the claimed status/failed download-error result. -/
theorem C3_remote_request_gets_inline_error :
    handler env0 remoteJob = [("error", missingFieldsMsg)] ∧
    List.lookup ("status") (handler env0 remoteJob) = none :=
  ⟨rfl, rfl⟩

/-- C3 (amended): for every environment, a remote-shaped request — no
inline `image`/`mask`, any `image_url`, `mask_url`, `output_location` and
`seed` — is rejected at validation with
`{"error": "Input must contain 'image' and 'mask' base64 strings."}`;
no fetch is attempted and the result has no "status" and no "glb_file"
key. -/
theorem C3_remote_shape_rejected (env : Env) (u v w : String) (s : Int) :
    handler env ⟨none, none, some u, some v, some w, some s⟩ = [("error", missingFieldsMsg)] ∧
    List.lookup ("status") (handler env ⟨none, none, some u, some v, some w, some s⟩) = none ∧
    List.lookup ("glb_file") (handler env ⟨none, none, some u, some v, some w, some s⟩) = none :=
  ⟨rfl, rfl, rfl⟩

/-- C4 (counterexample): the align step is not idempotent.  On a 1×1 image
with a 1×1 all-white mask the first run produces the mask value 1; running
the step again re-thresholds that value at >128, producing 0, so the second
output differs from the first. -/
theorem C4_align_not_idempotent :
    (alignMask img1 (alignMask img1 msk255)).px 0 0 = 0 ∧
    (alignMask img1 msk255).px 0 0 = 1 ∧
    alignMask img1 (alignMask img1 msk255) ≠ alignMask img1 msk255 := by
  refine ⟨rfl, rfl, fun h => ?_⟩
  have h01 : (0 : Nat) = 1 := congrArg (fun m => m.px 0 0) h
  exact absurd h01 (by decide)

/-- C4 (amended): running the align step on its own output leaves the image
identical and the mask's dimensions identical, but re-binarizes the mask:
since an aligned mask's values are already in {0,1} (all ≤ 128), every
sample of the second output is 0.  The step is therefore idempotent only on
pairs whose aligned mask is all-zero. -/
theorem C4_double_align_zeroes (image msk : Img) :
    (alignPair image (alignMask image msk)).1 = image ∧
    (alignMask image (alignMask image msk)).width = (alignMask image msk).width ∧
    (alignMask image (alignMask image msk)).height = (alignMask image msk).height ∧
    ∀ x y, (alignMask image (alignMask image msk)).px x y = 0 := by
  refine ⟨rfl, ?_, ?_, ?_⟩
  · rw [(alignMask_size image (alignMask image msk)).1, (alignMask_size image msk).1]
  · rw [(alignMask_size image (alignMask image msk)).2, (alignMask_size image msk).2]
  · intro x y
    rw [alignMask_px_eq]
    obtain ⟨a, b, hab⟩ := preAlign_px_source image (alignMask image msk) x y
    rw [hab]
    rcases alignMask_px01 image msk a b with h | h <;> rw [h] <;> rfl

/-- C5: for every mask whose (width, height) equals the image's
(height, width), the align step rotates the mask 90 degrees
(`Image.ROTATE_90`) and the resulting mask's dimensions equal the image's
dimensions, with all values binary. -/
theorem C5_transposed_mask_rotated (image msk : Img)
    (h1 : msk.width = image.height) (h2 : msk.height = image.width) :
    alignMask image msk = binMap (rotate90 msk) ∧
    (alignMask image msk).width = image.width ∧
    (alignMask image msk).height = image.height ∧
    ∀ x y, (alignMask image msk).px x y = 0 ∨ (alignMask image msk).px x y = 1 := by
  refine ⟨?_, (alignMask_size image msk).1, (alignMask_size image msk).2,
    fun x y => alignMask_px01 image msk x y⟩
  unfold alignMask
  rw [preAlign_swapped image msk h2.symm h1.symm]

/-- C5 witness: the 512×384 image with a 384×512 mask of the spec's
scenario. -/
theorem C5_transposed_mask_rotated_witness :
    msk384.width = img512.height ∧ msk384.height = img512.width ∧
    (alignMask img512 msk384 = binMap (rotate90 msk384) ∧
     (alignMask img512 msk384).width = img512.width ∧
     (alignMask img512 msk384).height = img512.height ∧
     ∀ x y, (alignMask img512 msk384).px x y = 0 ∨ (alignMask img512 msk384).px x y = 1) :=
  ⟨rfl, rfl, C5_transposed_mask_rotated img512 msk384 rfl rfl⟩

/-- C6 (counterexample): when the model output lacks the "glb" key the
handler returns `{"error": "Model failed to generate GLB output."}` — a
dict with no "status" key, not the claimed
`{"status": "failed", "error": ...}` result. -/
theorem C6_missing_glb_no_status_key :
    handler env0 inlineJob = [("error", modelFailMsg)] ∧
    List.lookup ("status") (handler env0 inlineJob) = none :=
  ⟨rfl, rfl⟩

/-- C6 (amended): when every step up to inference succeeds and the model's
output dict lacks the "glb" key, the handler returns exactly
`{"error": "Model failed to generate GLB output."}`; the result has no
"status" key and no "glb_file" key, so no artifact is produced. -/
theorem C6_missing_glb_yields_error_dict (env : Env) (job : JobInput)
    (i m : String) (imgA mskA imgB mskB : Img) (out : ModelOutput)
    (himg : job.image = some i) (hmsk : job.mask = some m)
    (hinit : env.initModel = .ok ())
    (hdi : env.decodeImage i = .ok imgA) (hdm : env.decodeMask m = .ok mskA)
    (hei : env.exifImage imgA = .ok imgB) (hem : env.exifMask mskA = .ok mskB)
    (hrun : env.runModel imgB (alignMask imgB mskB) (job.seed.getD 42) = .ok out)
    (hglb : out.hasGlb = false) :
    handler env job = [("error", modelFailMsg)] ∧
    List.lookup ("status") (handler env job) = none ∧
    List.lookup ("glb_file") (handler env job) = none := by
  obtain ⟨ji, jm, ju, jmu, jo, js⟩ := job
  simp only at himg hmsk hrun
  subst himg
  subst hmsk
  have hres : handler env ⟨some i, some m, ju, jmu, jo, js⟩ = [("error", modelFailMsg)] := by
    rw [handler_some]
    unfold handlerBody
    simp [hinit, hdi, hdm, hei, hem, hrun, hglb]
  exact ⟨hres, by rw [hres]; rfl, by rw [hres]; rfl⟩

/-- C6 witness: a concrete environment whose model output lacks the "glb"
key, on a concrete inline request. -/
theorem C6_missing_glb_yields_error_dict_witness :
    handler env0 inlineJob = [("error", modelFailMsg)] ∧
    List.lookup ("status") (handler env0 inlineJob) = none ∧
    List.lookup ("glb_file") (handler env0 inlineJob) = none :=
  C6_missing_glb_yields_error_dict env0 inlineJob ("aW1n") ("bXNr")
    img512 msk384 img512 msk384 ⟨false⟩ rfl rfl rfl rfl rfl rfl rfl rfl rfl

/-- C7: for every request whose input lacks the `image` key or the `mask`
key, the handler returns exactly
`{"error": "Input must contain 'image' and 'mask' base64 strings."}`, and
the result is the same for every environment — no step (model
initialization included) is ever consulted. -/
theorem C7_missing_fields_rejected_without_processing (envA envB : Env) (job : JobInput)
    (h : job.image = none ∨ job.mask = none) :
    handler envA job = [("error", missingFieldsMsg)] ∧
    handler envA job = handler envB job := by
  obtain ⟨ji, jm, ju, jmu, jo, js⟩ := job
  simp only at h
  rcases h with rfl | rfl
  · exact ⟨rfl, rfl⟩
  · cases ji with
    | none => exact ⟨rfl, rfl⟩
    | some i => exact ⟨rfl, rfl⟩

/-- C7 witness: a request missing the `mask` field, evaluated both in the
all-success environment and in the all-raising environment. -/
theorem C7_missing_fields_rejected_without_processing_witness :
    handler env0 jobNoMask = [("error", missingFieldsMsg)] ∧
    handler env0 jobNoMask = handler envErr jobNoMask :=
  C7_missing_fields_rejected_without_processing env0 envErr jobNoMask (Or.inr rfl)

/-- C8: the handler never lets a fault escape: for every environment and
job the result is either a `glb_file` dict or an `error` dict, and whenever
the try-block body raises a message, the handler returns exactly
`{"error": <that message>}`. -/
theorem C8_all_faults_caught :
    (∀ (env : Env) (job : JobInput),
      (∃ g, handler env job = [("glb_file", g)]) ∨
      (∃ e, handler env job = [("error", e)])) ∧
    (∀ (env : Env) (job : JobInput) (i m e : String),
      job.image = some i → job.mask = some m →
      handlerBody env i m (job.seed.getD 42) = .error e →
      handler env job = [("error", e)]) := by
  constructor
  · intro env job
    obtain ⟨ji, jm, ju, jmu, jo, js⟩ := job
    cases ji with
    | none => exact Or.inr ⟨missingFieldsMsg, rfl⟩
    | some i =>
    cases jm with
    | none => exact Or.inr ⟨missingFieldsMsg, rfl⟩
    | some m =>
    rcases handlerBody_cases env i m (js.getD 42) with ⟨e, he⟩ | ⟨g, hg⟩ | hm
    · exact Or.inr ⟨e, by rw [handler_some, he]⟩
    · exact Or.inl ⟨g, by rw [handler_some, hg]⟩
    · exact Or.inr ⟨modelFailMsg, by rw [handler_some, hm]⟩
  · intro env job i m e hI hM hb
    obtain ⟨ji, jm, ju, jmu, jo, js⟩ := job
    simp only at hI hM hb
    subst hI
    subst hM
    rw [handler_some, hb]

/-- C8 witness: an environment whose model initialization raises `boom`;
the handler returns `{"error": "boom"}`. -/
theorem C8_all_faults_caught_witness :
    handler envErr inlineJob = [("error", "boom")] :=
  C8_all_faults_caught.2 envErr inlineJob ("aW1n") ("bXNr") ("boom") rfl rfl rfl

/-- C9: binarization is the exact threshold `v > 128`: a sample maps to 1
iff it exceeds 128 (so 128 maps to 0 and 129 maps to 1), and every sample
of the align step's output is the binarization of the corresponding
geometrically-aligned source sample. -/
theorem C9_binarize_threshold :
    (∀ v : Nat, (binarize v = 1 ↔ 128 < v) ∧ (binarize v = 0 ↔ v ≤ 128)) ∧
    binarize 128 = 0 ∧ binarize 129 = 1 ∧
    ∀ (image msk : Img) (x y : Nat),
      (alignMask image msk).px x y = binarize ((preAlign image msk).px x y) := by
  refine ⟨fun v => ⟨?_, ?_⟩, rfl, rfl, fun _ _ _ _ => rfl⟩
  · unfold binarize
    by_cases h : 128 < v
    · simp [h]
    · simp [h]
  · unfold binarize
    by_cases h : 128 < v
    · simp [h]
      try omega
    · simp [h]
      try omega

/-- C10: whenever the transposed-axes condition of line 104 triggers the
90-degree rotation, the rotated mask's dimensions already equal the
image's, so the 180-degree branch of lines 107-108 is unreachable: the
align step is the same function with that branch deleted. -/
theorem C10_rotate180_branch_unreachable :
    (∀ (image msk : Img), image.width = msk.height → image.height = msk.width →
      (rotate90 msk).width = image.width ∧ (rotate90 msk).height = image.height) ∧
    ∀ (image msk : Img), alignMask image msk = alignMaskNo180 image msk := by
  constructor
  · intro image msk h1 h2
    exact ⟨h1.symm, h2.symm⟩
  · intro image msk
    unfold alignMask alignMaskNo180
    rw [preAlign_eq_no180]

/-- C10 witness: the transposed 512×384 / 384×512 pair. -/
theorem C10_rotate180_branch_unreachable_witness :
    (rotate90 msk384).width = img512.width ∧ (rotate90 msk384).height = img512.height :=
  C10_rotate180_branch_unreachable.1 img512 msk384 rfl rfl
